import Mathlib

/-!
Shallow embedding of the `dav_tools` message/styling component
(`src/dav_tools/text_color.py`, `src/dav_tools/messages.py`).

Output is modelled as strings written to streams; interactive input is
modelled as a list of pending stdin lines (an empty list means the stream
is at end-of-input, where Python's `input()` raises `EOFError`).
-/

namespace DavTools

/-- Modelled from the spec: the escape-sequence table lives in the module
`_text_format.py` / `text_format.py` (class `TextFormat`), which is not under
`src/`; spec section 6 fixes the set — reset, bold, dim, italic, blink,
reverse-video and a palette of named colors, each mapping to its standard
ANSI SGR code (reset = ESC[0m, bold = ESC[1m, red = ESC[31m, ...). -/
inductive Token where
  | RESET | BOLD | DIM | ITALIC | BLINK | REVERSE
  | RED | GREEN | YELLOW | BLUE | CYAN | PURPLE | DARKGRAY
  deriving DecidableEq, Fintype

/-- Modelled from the spec: each token's raw terminal escape representation
(Python `option.decode()` on the byte constants of `TextFormat`). -/
def Token.decode : Token → String
  | .RESET    => "\x1b[0m"
  | .BOLD     => "\x1b[1m"
  | .DIM      => "\x1b[2m"
  | .ITALIC   => "\x1b[3m"
  | .BLINK    => "\x1b[5m"
  | .REVERSE  => "\x1b[7m"
  | .RED      => "\x1b[31m"
  | .GREEN    => "\x1b[32m"
  | .YELLOW   => "\x1b[33m"
  | .BLUE     => "\x1b[34m"
  | .CYAN     => "\x1b[36m"
  | .PURPLE   => "\x1b[35m"
  | .DARKGRAY => "\x1b[90m"

/-- The two output streams used by the package (`sys.stdout` / `sys.stderr`). -/
inductive OutStream where
  | stdout | stderr
  deriving DecidableEq

/-- A log of writes: which stream each chunk of bytes was written to, in order. -/
abbrev Writes := List (OutStream × String)

/-- Python `' ' * n`. -/
def spaces (n : Nat) : String := String.mk (List.replicate n ' ')

/-- `text_color.get_format`: concatenates each option's escape representation,
in order; the empty option list yields the empty string. -/
def get_format (options : List Token) : String :=
  options.foldl (fun result option => result ++ option.decode) ""

/-- `text_color.set_format`: writes each option's escape representation to
`file` (the Python default for `file` is stdout), one write per option. -/
def set_format (options : List Token) (file : OutStream) : Writes :=
  options.map (fun option => (file, option.decode))

/-- `text_color.get_colored_text`: format prefix, then the text, then the
reset sequence. -/
def get_colored_text (text : String) (format_options : List Token) : String :=
  get_format format_options ++ text ++ get_format [Token.RESET]

/-- `text_color.print_colored_text`: the bytes `print(get_colored_text(text,
*format_options), end=end)` writes to its file. -/
def print_colored_text (text : String) (format_options : List Token)
    (endStr : String) : String :=
  get_colored_text text format_options ++ endStr

/-- A Python exception escaping one of the embedded functions. -/
inductive PyErr where
  | eofError
  deriving DecidableEq

/-- Python `input()`: returns the next stdin line (its newline stripped,
nothing else altered) and the remaining lines; raises `EOFError` when the
input stream is exhausted/closed. -/
def pyInput (stdin : List String) : Except PyErr (String × List String) :=
  match stdin with
  | [] => .error .eofError
  | line :: rest => .ok (line, rest)

/-- `text_color.input_colored`: sets the format on stderr, reads one line,
then (only if the read succeeds) writes the reset sequence via `set_format`
with its default file, which is stdout. Returns the writes performed and
either the line read (with the remaining stdin) or the escaping exception. -/
def input_colored (format_options : List Token) (stdin : List String) :
    Writes × Except PyErr (String × List String) :=
  let w1 := set_format format_options .stderr
  match pyInput stdin with
  | .error e => (w1, .error e)
  | .ok (line, rest) =>
      (w1 ++ set_format [Token.RESET] .stdout, .ok (line, rest))

/-- `text_color.clear_line`: carriage return, one space per terminal column,
carriage return. The terminal width is queried at call time
(`TextFormat.get_term_len`, not under `src/`; spec section 6: real column
count, fallback 80), so it is a parameter here. -/
def clear_line_str (termLen : Nat) : String :=
  "\r" ++ spaces termLen ++ "\r"

/-- One call `messages.message` makes to the printing primitive
(`_print_colored_text(text, *options, end=endStr, file=file)`): the text, the
style options, and the `end` argument. -/
structure Emission where
  text : String
  options : List Token
  endStr : String
  deriving DecidableEq

/-- The bytes one emission writes: `get_colored_text(text, *options) + end`.
The printing primitive `text_format.print_text` is not under `src/`; this
follows its in-src predecessor `text_color.print_colored_text` and the spec's
`emit` operation (spec section 4.1), which agree. -/
def renderEmission (e : Emission) : String :=
  print_colored_text e.text e.options e.endStr

/-- The text-segment loop of `messages.message` (lines 46-57): for segment
`i`, the style options are `default_text_options + additional_text_options[i]`
when `i < len(additional_text_options)` and `default_text_options` otherwise;
the `end` is a space except for the last segment; then, when
`i < len(text_min_len)` and `text_min_len[i] - len(text[i]) > 0`, a separate
unstyled emission of that many spaces. -/
def segmentEmissions (default_text_options : List Token) :
    List String → List Nat → List (List Token) → List Emission
  | [], _, _ => []
  | t :: rest, minLens, addOpts =>
      let line_options :=
        match addOpts with
        | [] => default_text_options
        | a :: _ => default_text_options ++ a
      let line_end := match rest with | [] => "" | _ :: _ => " "
      let padEmissions : List Emission :=
        match minLens with
        | [] => []
        | w :: _ =>
            if t.length < w then [⟨spaces (w - t.length), [], ""⟩] else []
      ⟨t, line_options, line_end⟩ ::
        (padEmissions ++ segmentEmissions default_text_options rest
          minLens.tail addOpts.tail)

/-- The icon block of `messages.message` (lines 34-43): when an icon is
present, four emissions — a bracket, the icon (with BLINK appended when
`blink`), a bracket, a single unstyled space. -/
def iconEmissions (icon : Option String) (icon_options : List Token)
    (blink : Bool) : List Emission :=
  match icon with
  | none => []
  | some ic =>
      [⟨"[", icon_options ++ [Token.BOLD], ""⟩,
       (if blink then ⟨ic, icon_options ++ [Token.BOLD, Token.BLINK], ""⟩
        else ⟨ic, icon_options ++ [Token.BOLD], ""⟩),
       ⟨"]", icon_options ++ [Token.BOLD], ""⟩,
       ⟨" ", [], ""⟩]

/-- All printing-primitive calls of one `messages.message` call, in order:
icon block, text segments with padding, then the final
`_print_colored_text(end=end)` (empty text, no options). -/
def message_emissions (text : List String) (text_min_len : List Nat)
    (default_text_options : List Token)
    (additional_text_options : List (List Token))
    (icon : Option String) (icon_options : List Token) (blink : Bool)
    (endStr : String) : List Emission :=
  iconEmissions icon icon_options blink
    ++ segmentEmissions default_text_options text text_min_len
        additional_text_options
    ++ [⟨"", [], endStr⟩]

/-- The full byte stream `messages.message` writes to its target stream:
the line-clear sequence, then every emission rendered in order. -/
def message_output (text : List String) (text_min_len : List Nat)
    (default_text_options : List Token)
    (additional_text_options : List (List Token))
    (icon : Option String) (icon_options : List Token) (blink : Bool)
    (endStr : String) (termLen : Nat) : String :=
  clear_line_str termLen ++
    String.join ((message_emissions text text_min_len default_text_options
      additional_text_options icon icon_options blink endStr).map
        renderEmission)

/-- `messages.warning`: icon `'!'` colored yellow, default text color yellow.
The `text_options` parameter is accepted but, unlike the other kinds, never
forwarded to `message` (source lines 192-202), so `additional_text_options`
keeps its default `[[]]`. -/
def warning_emissions (text : List String) (text_min_len : List Nat)
    (text_options : List (List Token)) (blink : Bool) : List Emission :=
  message_emissions text text_min_len [Token.YELLOW] [[]]
    (some "!") [Token.YELLOW] blink "\n"

/-- `messages.critical_error`: icon `'x'` colored red, default text color red,
no per-segment style parameter in its signature (source lines 157-177); after
printing, `sys.exit(exit_code)`. -/
def critical_error_emissions (text : List String) (text_min_len : List Nat)
    (blink : Bool) : List Emission :=
  message_emissions text text_min_len [Token.RED] [[]]
    (some "x") [Token.RED] blink "\n"

/-- Decimal digit to its character. -/
def digitChar (d : Nat) : Char := Char.ofNat (48 + d)

/-- Decimal digits of `n`, most significant first, with explicit fuel
(structural recursion; `fuel > n` suffices). Models Python `str(n)` for a
non-negative `n`. -/
def decReprAux : Nat → Nat → List Char
  | 0, _ => []
  | fuel + 1, n =>
      if n < 10 then [digitChar n]
      else decReprAux fuel (n / 10) ++ [digitChar (n % 10)]

/-- Python `str(n)` for a natural number: decimal, no leading zeros. -/
def decRepr (n : Nat) : String := String.mk (decReprAux (n + 1) n)

/-- Python `f'{n:04}'` for a natural number: the decimal representation,
left-padded with zeros to a minimum width of 4. -/
def pyFormat04 (n : Nat) : String :=
  String.mk (List.replicate (4 - (decRepr n).length) '0') ++ decRepr n

/-- The module-level counter `messages._debug_counter` starts at `0` at
process start (source line 10). -/
def debug_counter_init : Nat := 0

/-- One `messages.debug` call (lines 74-87): increments the global counter,
then calls `message` with icon `f'DEBUG {_debug_counter:04}'`, icon options
`[color, REVERSE]` and default text options `[color]`. Returns the new
counter value and the emissions. -/
def debug_run (counter : Nat) (color : Token) (text : List String)
    (text_min_len : List Nat) (text_options : List (List Token)) :
    Nat × List Emission :=
  let counter2 := counter + 1
  (counter2,
   message_emissions text text_min_len [color] text_options
     (some ("DEBUG " ++ pyFormat04 counter2)) [color, Token.REVERSE] false
     "\n")

/-- The counter value after `n` `debug` calls in one process: nothing else
in the module writes `_debug_counter`. -/
def debug_counter_after : Nat → Nat
  | 0 => debug_counter_init
  | n + 1 =>
      (debug_run (debug_counter_after n) Token.PURPLE [] [] [[]]).1

/-- Python `str.lower()`, restricted to the ASCII range the prompt logic
compares against. -/
def pyLower (s : String) : String := String.mk (s.data.map Char.toLower)

/-- `messages.ask` (lines 227-248): prints
`message(f'{question}{end}', icon='?', icon_options=[PURPLE],
default_text_options=[PURPLE], end='')` to stderr, then returns
`input_colored(PURPLE, ITALIC)`. Result: all writes performed, and either
the raw line read plus the remaining stdin, or the escaping exception. -/
def ask_run (question : String) (endStr : String) (termLen : Nat)
    (stdin : List String) : Writes × Except PyErr (String × List String) :=
  let w0 : Writes :=
    [(.stderr,
      message_output [question ++ endStr] [] [Token.PURPLE] [[]]
        (some "?") [Token.PURPLE] false "" termLen)]
  let (w1, r) := input_colored [Token.PURPLE, Token.ITALIC] stdin
  (w0 ++ w1, r)

/-- How a call to `messages.ask_continue` ends: fall through the loop
(normal return), `sys.exit(1)`, or an exception escaping uncaught. -/
inductive Outcome where
  | normal
  | exited (code : Nat)
  | raised (e : PyErr)
  deriving DecidableEq

/-- The question string `messages.ask_continue` builds (lines 260-268):
`f'{text}. Continue?'` or `'Continue?'`, plus `' (Y/n)'` when `default_yes`
else `' (y/N)'`. -/
def ask_continue_message (text : Option String) (default_yes : Bool) :
    String :=
  (match text with
   | some t => t ++ ". Continue?"
   | none => "Continue?") ++
  (if default_yes then " (Y/n)" else " (y/N)")

/-- The `while True` loop of `messages.ask_continue` (lines 270-276), run
over the pending stdin lines: each iteration reads one answer via `ask`;
lowercased `'y'` (or empty with `default_yes`) breaks out, lowercased `'n'`
(or empty without `default_yes`) exits with code 1, anything else loops;
exhausted stdin makes `input()` raise `EOFError`, which nothing catches. -/
def ask_continue_loop (default_yes : Bool) : List String → Outcome
  | [] => .raised .eofError
  | ans :: rest =>
      if pyLower ans = "y" ∨ (ans.length = 0 ∧ default_yes = true) then
        .normal
      else if pyLower ans = "n" ∨ (ans.length = 0 ∧ default_yes = false) then
        .exited 1
      else
        ask_continue_loop default_yes rest

/-- `messages.ask_continue`: build the question, then loop. -/
def ask_continue_run (text : Option String) (default_yes : Bool)
    (stdin : List String) : Outcome :=
  ask_continue_loop default_yes stdin

/-- Spec-side rendering of the text-segment loop, stated the way the padding
claim orders it: each segment emits its styled text, then — when a minimum
width `W` is declared and exceeds the unstyled length `L` (`L` is the length
of the plain segment string, not of the escape-laden styled string) — exactly
`W - L` unstyled space characters, then the single-space inter-segment
separator. The unstyled padding, like every emission of the printing
primitive, is followed by a reset escape; the code attaches the separator
space to the styled print instead, but separator and padding are all
unstyled spaces, so the byte stream is the same. -/
def segment_output_claim (default_text_options : List Token) :
    List String → List Nat → List (List Token) → String
  | [], _, _ => ""
  | t :: rest, minLens, addOpts =>
      let line_options :=
        match addOpts with
        | [] => default_text_options
        | a :: _ => default_text_options ++ a
      let sep := match rest with | [] => "" | _ :: _ => " "
      let pad : Option Nat :=
        match minLens with
        | [] => none
        | w :: _ => if t.length < w then some (w - t.length) else none
      get_colored_text t line_options ++
        (match pad with | none => "" | some p => spaces p) ++
        sep ++
        (match pad with | none => "" | some p => get_format [Token.RESET]) ++
        segment_output_claim default_text_options rest minLens.tail addOpts.tail

/-- The concatenation of everything written to one stream, in order. -/
def streamContent (s : OutStream) (w : Writes) : String :=
  String.join ((w.filter (fun p => p.1 == s)).map Prod.snd)

/-- Horner value of a list of decimal digit characters (leading zeros
contribute nothing). -/
def decVal (cs : List Char) : Nat :=
  cs.foldl (fun acc c => acc * 10 + (c.toNat - 48)) 0

/- ## Shared lemmas -/

theorem spaces_length (n : Nat) : (spaces n).length = n := by
  simp [spaces, String.length]

theorem space_comm (p : Nat) : " " ++ spaces p = spaces p ++ " " := by
  apply String.ext
  simp [spaces, String.data_append]
  rw [← List.replicate_succ, ← List.replicate_succ']

theorem join_nil : String.join [] = "" := rfl

theorem join_cons (s : String) (l : List String) :
    String.join (s :: l) = s ++ String.join l := by
  apply String.ext
  simp [String.data_join, String.data_append]

theorem join_append (l1 l2 : List String) :
    String.join (l1 ++ l2) = String.join l1 ++ String.join l2 := by
  apply String.ext
  simp [String.data_join, String.data_append]

theorem get_format_single (t : Token) : get_format [t] = t.decode := by
  simp [get_format, String.empty_append]

theorem get_format_eq_join (options : List Token) :
    get_format options = String.join (options.map Token.decode) := by
  simp [get_format, String.join, List.foldl_map]

theorem digitChar_toNat (d : Nat) (h : d < 10) : (digitChar d).toNat = 48 + d := by
  have hv : Nat.isValidChar (48 + d) := Or.inl (by omega)
  simp [digitChar, Char.ofNat, hv, Char.toNat, Char.ofNatAux, UInt32.toNat,
    UInt32.ofNatCore, BitVec.toNat_ofNatLt]

theorem decReprAux_length (fuel : Nat) :
    ∀ n d : Nat, n < fuel → 1 ≤ d → n < 10 ^ d →
      (decReprAux fuel n).length ≤ d := by
  induction fuel with
  | zero => intro n d h _ _; omega
  | succ fuel ih =>
      intro n d hfuel hd hn
      by_cases h10 : n < 10
      · simp [decReprAux, h10]; omega
      · simp only [decReprAux, h10, if_false, List.length_append,
          List.length_singleton]
        have hpos : 0 < n := by omega
        have hdiv : n / 10 < n := Nat.div_lt_self hpos (by omega)
        have hd2 : 2 ≤ d := by
          by_contra hlt
          have hd1 : d = 1 := by omega
          subst hd1
          simp at hn
          omega
        have h2 : n / 10 < 10 ^ (d - 1) := by
          rw [Nat.div_lt_iff_lt_mul (by omega)]
          calc n < 10 ^ d := hn
            _ = 10 ^ (d - 1) * 10 := by
                  rw [← Nat.pow_succ]
                  congr 1
                  omega
        have := ih (n / 10) (d - 1) (by omega) (by omega) h2
        omega

theorem decVal_decReprAux (fuel : Nat) :
    ∀ n : Nat, n < fuel → decVal (decReprAux fuel n) = n := by
  induction fuel with
  | zero => intro n h; omega
  | succ fuel ih =>
      intro n hn
      by_cases h10 : n < 10
      · simp [decReprAux, h10, decVal, digitChar_toNat n h10]
      · have hpos : 0 < n := by omega
        have hdiv : n / 10 < n := Nat.div_lt_self hpos (by omega)
        have hmod : n % 10 < 10 := Nat.mod_lt _ (by omega)
        simp only [decReprAux, h10, if_false, decVal, List.foldl_append,
          List.foldl_cons, List.foldl_nil]
        have ihv := ih (n / 10) (by omega)
        simp only [decVal] at ihv
        rw [ihv, digitChar_toNat _ hmod]
        omega

theorem decVal_zeros_append (z : Nat) (l : List Char) :
    decVal (List.replicate z '0' ++ l) = decVal l := by
  induction z with
  | zero => simp
  | succ z ih =>
      simp only [List.replicate_succ, List.cons_append, decVal,
        List.foldl_cons,
        show (0 * 10 + ('0'.toNat - 48)) = 0 from rfl] at ih ⊢
      exact ih

theorem decVal_pyFormat04 (n : Nat) : decVal (pyFormat04 n).data = n := by
  have h1 : (pyFormat04 n).data =
      List.replicate (4 - (decRepr n).length) '0' ++ (decRepr n).data := by
    simp [pyFormat04, String.data_append, spaces]
  rw [h1, decVal_zeros_append]
  exact decVal_decReprAux (n + 1) n (by omega)

theorem mk_replicate_length (n : Nat) (c : Char) :
    (String.mk (List.replicate n c)).length = n := by
  simp [String.length]

theorem decRepr_length_le (n : Nat) (h : n ≤ 9999) : (decRepr n).length ≤ 4 := by
  show (decReprAux (n + 1) n).length ≤ 4
  apply decReprAux_length (n + 1) n 4 (by omega) (by omega)
  norm_num
  omega

theorem pyFormat04_length (n : Nat) (h : n ≤ 9999) :
    (pyFormat04 n).length = 4 := by
  have hle := decRepr_length_le n h
  have h2 : (pyFormat04 n).length = (4 - (decRepr n).length) + (decRepr n).length := by
    rw [pyFormat04, String.length_append, mk_replicate_length]
  omega

theorem debug_counter_after_eq (n : Nat) : debug_counter_after n = n := by
  induction n with
  | zero => rfl
  | succ n ih => simp [debug_counter_after, debug_run, ih]

theorem segment_join_eq (dOpts : List Token) :
    ∀ (ts : List String) (ml : List Nat) (ao : List (List Token)),
      String.join ((segmentEmissions dOpts ts ml ao).map renderEmission) =
        segment_output_claim dOpts ts ml ao := by
  intro ts
  induction ts with
  | nil => intro ml ao; rfl
  | cons t rest ih =>
      intro ml ao
      simp only [segmentEmissions, segment_output_claim, List.map_cons,
        List.map_append, join_cons, join_append, ih]
      cases ml with
      | nil =>
          simp only [List.map_nil, String.join, List.foldl_nil,
            String.empty_append, List.tail_nil]
          cases rest with
          | nil =>
              simp [renderEmission, print_colored_text, String.append_empty,
                String.append_assoc]
          | cons r rs =>
              simp [renderEmission, print_colored_text, String.append_empty,
                String.append_assoc]
      | cons w mlt =>
          by_cases hp : t.length < w
          · simp only [hp, if_true, List.map_cons, List.map_nil, join_cons,
              String.join, List.foldl_nil, List.tail_cons]
            cases rest with
            | nil =>
                simp [renderEmission, print_colored_text, get_colored_text,
                  get_format_single, String.append_empty, String.empty_append,
                  String.append_assoc, get_format]
            | cons r rs =>
                simp [renderEmission, print_colored_text, get_colored_text,
                  get_format_single, String.append_empty, String.empty_append,
                  String.append_assoc, get_format]
                congr 3
                rw [← String.append_assoc, space_comm, String.append_assoc]
          · simp only [hp, if_false, List.map_nil, String.join,
              List.foldl_nil, String.empty_append, List.tail_cons]
            cases rest with
            | nil =>
                simp [renderEmission, print_colored_text, String.append_empty,
                  String.append_assoc]
            | cons r rs =>
                simp [renderEmission, print_colored_text, String.append_empty,
                  String.append_assoc]

theorem pyLower_length (s : String) : (pyLower s).length = s.length := by
  show (s.data.map Char.toLower).length = s.data.length
  simp

theorem Token.decode_injective (a b : Token) (h : a.decode = b.decode) :
    a = b := by
  revert h
  revert a b
  decide

theorem filter_map_pair (f : OutStream) (g : Token → String)
    (opts : List Token) :
    List.filter (fun p => p.1 == f) (opts.map (fun o => (f, g o))) =
      opts.map (fun o => (f, g o)) := by
  induction opts with
  | nil => rfl
  | cons o os ih => simp [List.filter_cons, ih]

theorem filter_map_pair_ne (f f2 : OutStream) (g : Token → String)
    (opts : List Token) (h : f ≠ f2) :
    List.filter (fun p => p.1 == f2) (opts.map (fun o => (f, g o))) = [] := by
  induction opts with
  | nil => rfl
  | cons o os ih => simp [List.filter_cons, ih, h]

theorem segmentEmissions_fixed_options (dOpts : List Token) :
    ∀ (ts : List String) (ml : List Nat) (ao : List (List Token)),
      (∀ a ∈ ao, a = []) →
      ∀ e ∈ segmentEmissions dOpts ts ml ao,
        e.options = dOpts ∨ (e.options = [] ∧ e.text = spaces e.text.length) := by
  intro ts
  induction ts with
  | nil => intro ml ao _ e he; simp [segmentEmissions] at he
  | cons t rest ih =>
      intro ml ao hao e he
      simp only [segmentEmissions, List.mem_cons, List.mem_append] at he
      rcases he with he | he | he
      · subst he
        left
        cases ao with
        | nil => rfl
        | cons a tl =>
            have : a = [] := hao a (List.mem_cons_self a tl)
            simp [this]
      · right
        cases ml with
        | nil => simp at he
        | cons w mlt =>
            by_cases hp : t.length < w
            · simp only [hp, if_true, List.mem_singleton] at he
              subst he
              exact ⟨rfl, by rw [spaces_length]⟩
            · simp [hp] at he
      · exact ih ml.tail ao.tail
          (fun a ha => hao a (List.mem_of_mem_tail ha)) e he

theorem ask_continue_replicate (d : Bool) (n : Nat) :
    ask_continue_loop d (List.replicate n "maybe" ++ ["y"]) =
      Outcome.normal := by
  induction n with
  | zero =>
      simp only [List.replicate, List.nil_append, ask_continue_loop]
      rw [if_pos (Or.inl (by decide))]
  | succ n ih =>
      simp only [List.replicate_succ, List.cons_append, ask_continue_loop]
      have h1 : ¬(pyLower "maybe" = "y" ∨ ("maybe".length = 0 ∧ d = true)) := by
        rintro (h | ⟨h0, _⟩)
        · exact absurd h (by decide)
        · exact absurd h0 (by decide)
      have h2 : ¬(pyLower "maybe" = "n" ∨ ("maybe".length = 0 ∧ d = false)) := by
        rintro (h | ⟨h0, _⟩)
        · exact absurd h (by decide)
        · exact absurd h0 (by decide)
      rw [if_neg h1, if_neg h2]
      exact ih

/- ## Claim theorems -/

/-- C1: `ask_continue(text, default_yes)` renders the question as `text`
followed by `. Continue?` (just `Continue?` when `text` is absent), suffixed
with ` (Y/n)` when `default_yes` is true and ` (y/N)` otherwise; looping over
the answers read by `ask`: a lowercased answer `y`, or an empty answer with
`default_yes`, returns normally; a lowercased `n`, or an empty answer without
`default_yes`, exits the process with code 1; any other answer causes another
prompt iteration, with no bound on the number of iterations. -/
theorem C1_ask_continue_semantics (t ans : String) (d : Bool)
    (rest : List String) (n : Nat) :
    ask_continue_message (some t) d =
      t ++ ". Continue?" ++ (if d then " (Y/n)" else " (y/N)")
  ∧ ask_continue_message none d =
      "Continue?" ++ (if d then " (Y/n)" else " (y/N)")
  ∧ (pyLower ans = "y" ∨ (ans.length = 0 ∧ d = true) →
      ask_continue_run (some t) d (ans :: rest) = Outcome.normal)
  ∧ (pyLower ans = "n" ∨ (ans.length = 0 ∧ d = false) →
      ask_continue_run (some t) d (ans :: rest) = Outcome.exited 1)
  ∧ (pyLower ans ≠ "y" → pyLower ans ≠ "n" → ans.length ≠ 0 →
      ask_continue_run (some t) d (ans :: rest) =
        ask_continue_run (some t) d rest)
  ∧ ask_continue_run (some t) d (List.replicate n "maybe" ++ ["y"]) =
      Outcome.normal := by
  refine ⟨rfl, rfl, ?_, ?_, ?_, ask_continue_replicate d n⟩
  · intro h
    show ask_continue_loop d (ans :: rest) = Outcome.normal
    rw [ask_continue_loop, if_pos h]
  · intro h
    have hy : ¬(pyLower ans = "y" ∨ (ans.length = 0 ∧ d = true)) := by
      rintro (hy | ⟨h0, hd⟩)
      · rcases h with hn | ⟨h0, _⟩
        · rw [hy] at hn; exact absurd hn (by decide)
        · have := pyLower_length ans
          rw [hy] at this
          rw [show ("y" : String).length = 1 from rfl] at this
          omega
      · rcases h with hn | ⟨_, hd2⟩
        · have := pyLower_length ans
          rw [hn] at this
          rw [show ("n" : String).length = 1 from rfl] at this
          omega
        · rw [hd] at hd2; exact absurd hd2 (by decide)
    show ask_continue_loop d (ans :: rest) = Outcome.exited 1
    rw [ask_continue_loop, if_neg hy, if_pos h]
  · intro h1 h2 h3
    have hy : ¬(pyLower ans = "y" ∨ (ans.length = 0 ∧ d = true)) := by
      rintro (hy | ⟨h0, _⟩)
      · exact h1 hy
      · exact h3 h0
    have hn : ¬(pyLower ans = "n" ∨ (ans.length = 0 ∧ d = false)) := by
      rintro (hn | ⟨h0, _⟩)
      · exact h2 hn
      · exact h3 h0
    show ask_continue_loop d (ans :: rest) = ask_continue_loop d rest
    rw [ask_continue_loop, if_neg hy, if_neg hn]

/-- C1 witness: with `default_yes = false`, the answer `maybe` re-prompts,
`Y` returns normally, an empty answer exits with code 1; with
`default_yes = true` an empty answer returns normally. -/
theorem C1_ask_continue_semantics_witness :
    ask_continue_run (some "save") false ("maybe" :: ["y"]) =
      ask_continue_run (some "save") false ["y"]
  ∧ ask_continue_run (some "save") false ("Y" :: []) = Outcome.normal
  ∧ ask_continue_run (some "save") false ("" :: []) = Outcome.exited 1
  ∧ ask_continue_run (some "save") true ("" :: []) = Outcome.normal :=
  ⟨(C1_ask_continue_semantics "save" "maybe" false ["y"] 0).2.2.2.2.1
      (by decide) (by decide) (by decide),
   (C1_ask_continue_semantics "save" "Y" false [] 0).2.2.1
      (Or.inl (by decide)),
   (C1_ask_continue_semantics "save" "" false [] 0).2.2.2.1
      (Or.inr ⟨by decide, rfl⟩),
   (C1_ask_continue_semantics "save" "" true [] 0).2.2.1
      (Or.inr ⟨by decide, rfl⟩)⟩

/-- C2: the claim says end-of-input is treated as an empty answer with no
escaping exception; in the code, `input()` raises `EOFError`, nothing in
`input_colored`, `ask` or `ask_continue` catches it, so at end-of-input
`ask_continue` raises instead of returning normally (`default_yes = true`)
or exiting via its own branch (`default_yes = false`). -/
theorem C2_eof_raises_eoferror :
    pyInput [] = Except.error PyErr.eofError
  ∧ input_colored [Token.PURPLE, Token.ITALIC] [] =
      (set_format [Token.PURPLE, Token.ITALIC] OutStream.stderr,
        Except.error PyErr.eofError)
  ∧ ask_continue_run (some "go") true [] = Outcome.raised PyErr.eofError
  ∧ ask_continue_run (some "go") false [] = Outcome.raised PyErr.eofError :=
  ⟨rfl, rfl, rfl, rfl⟩

/-- C3: the byte stream `message` writes equals the spec-side rendering in
which every segment whose declared minimum width `W` exceeds its unstyled
length `L` is followed by exactly `W - L` unstyled space characters before
the inter-segment separator (`segment_output_claim`; the count is measured
on the plain segment string), and a segment with `W ≤ L`, or with no
declared width, gets no padding. -/
theorem C3_message_padding (ts : List String) (ml : List Nat)
    (dOpts : List Token) (ao : List (List Token)) (icon : Option String)
    (iconOpts : List Token) (blink : Bool) (endStr : String) (termLen : Nat) :
    message_output ts ml dOpts ao icon iconOpts blink endStr termLen =
      clear_line_str termLen ++
        String.join ((iconEmissions icon iconOpts blink).map renderEmission) ++
        segment_output_claim dOpts ts ml ao ++
        renderEmission ⟨"", [], endStr⟩ := by
  rw [message_output, message_emissions, List.map_append, List.map_append,
    join_append, join_append, segment_join_eq]
  simp [join_cons, join_nil, String.append_empty, String.append_assoc]

/-- C4 counterexample: the identifiers are not always 4-digit numbers — at
the 10000th `debug` call of a process the counter reaches 10000 and the icon
is rendered as `DEBUG 10000`, whose number part has five digits. -/
theorem C4_counterexample :
    (debug_run (debug_counter_after 9999) Token.PURPLE ["x"] [] [[]]).2 =
      message_emissions ["x"] [] [Token.PURPLE] [[]]
        (some ("DEBUG " ++ pyFormat04 10000)) [Token.PURPLE, Token.REVERSE]
        false "\n"
  ∧ pyFormat04 10000 = "10000"
  ∧ ¬ (("10000" : String).length = 4) := by
  refine ⟨?_, by decide, by decide⟩
  rw [debug_counter_after_eq]
  rfl

/-- C4 (amended): the counter starts at zero, each `debug` call increments it
by exactly one (and nothing else touches it, so after `n` calls it is `n`),
it strictly increases between calls, the icon of the call that brings the
counter to `k` renders as `DEBUG ` followed by the decimal of `k` zero-padded
to a minimum of four digits (exactly four digits through the 9999th call, and
`0001` on the first call), and the numeric value of that identifier is `k`,
so consecutive identifiers are strictly increasing as numbers. -/
theorem C4_debug_sequence (cnt n a b k : Nat) (c : Token) (ts : List String)
    (ml : List Nat) (to2 : List (List Token)) (hab : a < b) (hk1 : 1 ≤ k)
    (hk9 : k ≤ 9999) :
    debug_counter_init = 0
  ∧ debug_counter_after 0 = 0
  ∧ (debug_run cnt c ts ml to2).1 = cnt + 1
  ∧ debug_counter_after (n + 1) = debug_counter_after n + 1
  ∧ debug_counter_after a < debug_counter_after b
  ∧ (debug_run (debug_counter_after n) c ts ml to2).2 =
      message_emissions ts ml [c] to2
        (some ("DEBUG " ++ pyFormat04 (n + 1))) [c, Token.REVERSE] false "\n"
  ∧ decVal (pyFormat04 (n + 1)).data = n + 1
  ∧ pyFormat04 1 = "0001"
  ∧ (pyFormat04 k).length = 4 := by
  refine ⟨rfl, rfl, rfl, ?_, ?_, ?_, decVal_pyFormat04 (n + 1), by decide,
    pyFormat04_length k hk9⟩
  · simp [debug_counter_after, debug_run]
  · rw [debug_counter_after_eq, debug_counter_after_eq]; exact hab
  · rw [debug_counter_after_eq]
    rfl

/-- C4 witness: first call gives `0001` (four digits, value 1) and the
counter strictly increases from call 0 to call 1. -/
theorem C4_debug_sequence_witness :
    pyFormat04 1 = "0001"
  ∧ debug_counter_after 0 < debug_counter_after 1
  ∧ (pyFormat04 1).length = 4 :=
  ⟨(C4_debug_sequence 0 0 0 1 1 Token.PURPLE [] [] [[]] (by decide)
      (by decide) (by decide)).2.2.2.2.2.2.2.1,
   (C4_debug_sequence 0 0 0 1 1 Token.PURPLE [] [] [[]] (by decide)
      (by decide) (by decide)).2.2.2.2.1,
   (C4_debug_sequence 0 0 0 1 1 Token.PURPLE [] [] [[]] (by decide)
      (by decide) (by decide)).2.2.2.2.2.2.2.2⟩

/-- C5: `decorate` (`get_colored_text`) returns
`format_sequence(T) + text + format_sequence([RESET])`; the result always
ends with the reset escape sequence, and contains `text` as a contiguous
substring immediately following `format_sequence(T)`. -/
theorem C5_decorate (text : String) (T : List Token) :
    get_colored_text text T = get_format T ++ text ++ get_format [Token.RESET]
  ∧ get_colored_text text T = (get_format T ++ text) ++ Token.RESET.decode
  ∧ ∃ s, get_colored_text text T = get_format T ++ text ++ s :=
  ⟨rfl, by rw [get_colored_text, get_format_single],
   ⟨get_format [Token.RESET], rfl⟩⟩

/-- C6 counterexample: a `message` call with no icon and no text segments
does not write only the terminator — the line-clear sequence (and the reset
escape of the final print) precede it. -/
theorem C6_counterexample :
    message_output [] [] [] [[]] none [] false "\n" 80 ≠ "\n" := by
  decide

/-- C6 (amended): `format_sequence([])` is the empty string, and a
`message`/render call with no icon and no text segments writes exactly the
line-clear sequence, one reset escape (from the final print of the empty
text), and the terminator — no icon or segment bytes. -/
theorem C6_empty_render (endStr : String) (termLen : Nat) :
    get_format [] = ""
  ∧ message_output [] [] [] [[]] none [] false endStr termLen =
      clear_line_str termLen ++ Token.RESET.decode ++ endStr := by
  refine ⟨rfl, ?_⟩
  rw [message_output, message_emissions]
  simp [iconEmissions, segmentEmissions, join_cons, join_nil, renderEmission,
    print_colored_text, get_colored_text, get_format_single,
    String.empty_append, String.append_empty, String.append_assoc, get_format]

/-- C7: with a non-None icon, the icon block is four separate emissions in
order — `[` styled with the icon options plus bold, the icon character with
the icon options plus bold (plus blink when the blink flag is set), `]` with
the icon options plus bold, then a single unstyled space; the bracket glyphs
always carry bold, and (the icon options carrying no blink themselves) the
brackets never carry blink. -/
theorem C7_icon_block (ic : String) (iconOpts : List Token) (blink : Bool)
    (ts : List String) (ml : List Nat) (dOpts : List Token)
    (ao : List (List Token)) (endStr : String)
    (hnb : Token.BLINK ∉ iconOpts) :
    (message_emissions ts ml dOpts ao (some ic) iconOpts blink endStr).take 4 =
      [⟨"[", iconOpts ++ [Token.BOLD], ""⟩,
       (if blink then ⟨ic, iconOpts ++ [Token.BOLD, Token.BLINK], ""⟩
        else ⟨ic, iconOpts ++ [Token.BOLD], ""⟩),
       ⟨"]", iconOpts ++ [Token.BOLD], ""⟩,
       ⟨" ", ([] : List Token), ""⟩]
  ∧ Token.BOLD ∈ iconOpts ++ [Token.BOLD]
  ∧ Token.BLINK ∉ iconOpts ++ [Token.BOLD] := by
  refine ⟨?_, by simp, ?_⟩
  · rw [message_emissions, iconEmissions]
    simp
  · intro h
    rcases List.mem_append.1 h with h1 | h1
    · exact hnb h1
    · simp at h1

/-- C7 witness: the icon block of `info("m")` (icon `*`, cyan, no blink). -/
theorem C7_icon_block_witness :
    (message_emissions ["m"] [] [Token.CYAN] [[]] (some "*") [Token.CYAN]
        false "\n").take 4 =
      [⟨"[", [Token.CYAN] ++ [Token.BOLD], ""⟩,
       (if false then ⟨"*", [Token.CYAN] ++ [Token.BOLD, Token.BLINK], ""⟩
        else ⟨"*", [Token.CYAN] ++ [Token.BOLD], ""⟩),
       ⟨"]", [Token.CYAN] ++ [Token.BOLD], ""⟩,
       ⟨" ", ([] : List Token), ""⟩]
  ∧ Token.BOLD ∈ [Token.CYAN] ++ [Token.BOLD]
  ∧ Token.BLINK ∉ [Token.CYAN] ++ [Token.BOLD] :=
  C7_icon_block "*" [Token.CYAN] false ["m"] [] [Token.CYAN] [[]] "\n"
    (by decide)

/-- C9: `warning` accepts a `text_options` parameter but never forwards it to
`message`, so its emissions are independent of it and every text segment is
rendered with exactly the yellow default style (padding emissions are
unstyled runs of spaces); `critical_error` has no per-segment style parameter
at all and every segment is rendered with exactly the red default style. -/
theorem C9_fixed_styles (ts : List String) (ml : List Nat)
    (to1 to2 : List (List Token)) (b : Bool) (e1 e2 : Emission)
    (h1 : e1 ∈ segmentEmissions [Token.YELLOW] ts ml [[]])
    (h2 : e2 ∈ segmentEmissions [Token.RED] ts ml [[]]) :
    warning_emissions ts ml to1 b = warning_emissions ts ml to2 b
  ∧ warning_emissions ts ml to1 b =
      iconEmissions (some "!") [Token.YELLOW] b ++
        segmentEmissions [Token.YELLOW] ts ml [[]] ++ [⟨"", [], "\n"⟩]
  ∧ critical_error_emissions ts ml b =
      iconEmissions (some "x") [Token.RED] b ++
        segmentEmissions [Token.RED] ts ml [[]] ++ [⟨"", [], "\n"⟩]
  ∧ (e1.options = [Token.YELLOW] ∨
      (e1.options = [] ∧ e1.text = spaces e1.text.length))
  ∧ (e2.options = [Token.RED] ∨
      (e2.options = [] ∧ e2.text = spaces e2.text.length)) :=
  ⟨rfl, rfl, rfl,
   segmentEmissions_fixed_options [Token.YELLOW] ts ml [[]]
     (by simp) e1 h1,
   segmentEmissions_fixed_options [Token.RED] ts ml [[]]
     (by simp) e2 h2⟩

/-- C9 witness: one-segment instance — the segment emission carries exactly
the default color, and `warning` gives the same emissions whatever
`text_options` it was passed. -/
theorem C9_fixed_styles_witness :
    warning_emissions ["w"] [] [[Token.BOLD]] false =
      warning_emissions ["w"] [] [[]] false
  ∧ ((⟨"w", [Token.YELLOW], ""⟩ : Emission).options = [Token.YELLOW] ∨
      ((⟨"w", [Token.YELLOW], ""⟩ : Emission).options = [] ∧
        (⟨"w", [Token.YELLOW], ""⟩ : Emission).text =
          spaces (⟨"w", [Token.YELLOW], ""⟩ : Emission).text.length)) :=
  ⟨(C9_fixed_styles ["w"] [] [[Token.BOLD]] [[]] false
      ⟨"w", [Token.YELLOW], ""⟩ ⟨"w", [Token.RED], ""⟩
      (by decide) (by decide)).1,
   (C9_fixed_styles ["w"] [] [[Token.BOLD]] [[]] false
      ⟨"w", [Token.YELLOW], ""⟩ ⟨"w", [Token.RED], ""⟩
      (by decide) (by decide)).2.2.2.1⟩

/-- C10: after a normal `input_colored(tokens)` return, the style-prefix
escape bytes have all been written to stderr and the trailing reset escape
has been written to stdout (the `set_format` default), not to stderr: the
write log is exactly the per-token stderr writes followed by one stdout
reset write, stderr having received `get_format tokens` and never the reset
sequence (when the tokens do not themselves include RESET). -/
theorem C10_input_colored_reset_streams (opts : List Token) (line : String)
    (rest : List String) (hr : Token.RESET ∉ opts) :
    input_colored opts (line :: rest) =
      (opts.map (fun o => (OutStream.stderr, o.decode)) ++
        [(OutStream.stdout, Token.RESET.decode)], Except.ok (line, rest))
  ∧ streamContent OutStream.stderr (input_colored opts (line :: rest)).1 =
      get_format opts
  ∧ streamContent OutStream.stdout (input_colored opts (line :: rest)).1 =
      Token.RESET.decode
  ∧ ∀ s, (OutStream.stderr, s) ∈ (input_colored opts (line :: rest)).1 →
      s ≠ Token.RESET.decode := by
  refine ⟨rfl, ?_, ?_, ?_⟩
  · show streamContent OutStream.stderr
      (set_format opts .stderr ++ set_format [Token.RESET] .stdout) =
        get_format opts
    rw [streamContent, set_format, set_format, List.filter_append,
      filter_map_pair,
      filter_map_pair_ne OutStream.stdout OutStream.stderr _ _ (by decide),
      List.append_nil, List.map_map, get_format_eq_join]
    rfl
  · show streamContent OutStream.stdout
      (set_format opts .stderr ++ set_format [Token.RESET] .stdout) =
        Token.RESET.decode
    rw [streamContent, set_format, set_format, List.filter_append,
      filter_map_pair_ne OutStream.stderr OutStream.stdout _ _ (by decide),
      List.nil_append]
    rfl
  · intro s hs hcontra
    have hs2 : (OutStream.stderr, s) ∈
        set_format opts .stderr ++ set_format [Token.RESET] .stdout := hs
    rcases List.mem_append.1 hs2 with hmem | hmem
    · rw [set_format] at hmem
      rcases List.mem_map.1 hmem with ⟨o, ho, heq⟩
      have : o.decode = s := congrArg Prod.snd heq
      rw [hcontra] at this
      have : o = Token.RESET := Token.decode_injective o Token.RESET this
      rw [this] at ho
      exact hr ho
    · rw [set_format] at hmem
      simp at hmem

/-- C10 witness: the exact call site `input_colored(PURPLE, ITALIC)` of
`ask`: the write log, and the reset sequence never reaching stderr. -/
theorem C10_input_colored_reset_streams_witness :
    input_colored [Token.PURPLE, Token.ITALIC] ["ok"] =
      ([Token.PURPLE, Token.ITALIC].map
          (fun o => (OutStream.stderr, o.decode)) ++
        [(OutStream.stdout, Token.RESET.decode)], Except.ok ("ok", []))
  ∧ (OutStream.stderr, Token.RESET.decode) ∉
      (input_colored [Token.PURPLE, Token.ITALIC] ["ok"]).1 :=
  ⟨(C10_input_colored_reset_streams [Token.PURPLE, Token.ITALIC] "ok" []
      (by decide)).1,
   fun hm =>
     (C10_input_colored_reset_streams [Token.PURPLE, Token.ITALIC] "ok" []
        (by decide)).2.2.2 Token.RESET.decode hm rfl⟩

theorem streamContent_append (s : OutStream) (w1 w2 : Writes) :
    streamContent s (w1 ++ w2) = streamContent s w1 ++ streamContent s w2 := by
  rw [streamContent, streamContent, streamContent, List.filter_append,
    List.map_append, join_append]

theorem streamContent_single_same (s : OutStream) (str : String) :
    streamContent s [(s, str)] = str := by
  rw [streamContent]
  simp [List.filter, join_cons, join_nil, String.append_empty]

/-- C8: `ask(question)` with the default terminator returns the raw line read
from standard input, with no trimming of leading or trailing content; and on
stderr the literal text `question + ": "` — rendered after the line clear,
the `?` icon block and the purple style prefix — is followed immediately by
the styled input region (the style prefix of the echoed keystrokes), with
only escape sequences and no newline in between, since `ask` passes an empty
terminator to `message`. -/
theorem C8_ask (q line : String) (rest : List String) (termLen : Nat) :
    (ask_run q ": " termLen (line :: rest)).2 = Except.ok (line, rest)
  ∧ streamContent OutStream.stderr (ask_run q ": " termLen (line :: rest)).1 =
      clear_line_str termLen ++
        String.join ((iconEmissions (some "?") [Token.PURPLE] false).map
          renderEmission) ++
        Token.PURPLE.decode ++ (q ++ ": ") ++
        (Token.RESET.decode ++ Token.RESET.decode ++ Token.PURPLE.decode ++
          Token.ITALIC.decode)
  ∧ (Token.RESET.decode ++ Token.RESET.decode ++ Token.PURPLE.decode ++
      Token.ITALIC.decode).data.all (fun ch => ch ≠ '\n') = true := by
  refine ⟨rfl, ?_, by decide⟩
  show streamContent OutStream.stderr
      ([(OutStream.stderr,
          message_output [q ++ ": "] [] [Token.PURPLE] [[]]
            (some "?") [Token.PURPLE] false "" termLen)] ++
        (set_format [Token.PURPLE, Token.ITALIC] .stderr ++
          set_format [Token.RESET] .stdout)) = _
  rw [streamContent_append, streamContent_append, streamContent_single_same]
  rw [message_output, message_emissions, List.map_append, List.map_append,
    join_append, join_append]
  simp [segmentEmissions, join_cons, join_nil, renderEmission,
    print_colored_text, get_colored_text, get_format_single, get_format,
    String.append_empty, String.empty_append, String.append_assoc,
    streamContent, set_format, List.filter_cons]

end DavTools
